import Mathlib

set_option maxHeartbeats 1000000

/-!
Shallow embedding of the train-delays data-composition pipeline:
`src/utils/fetching/routes.py`, `src/utils/fetching/geocoding.py`,
`src/utils/fetching/weather.py` and `src/utils/preprocessing/composition.py`.

Modelling conventions:
* Python floats are modelled as exact rationals; cells that can hold a
  Python `None` or a `NaN` produced by a left join are modelled as
  `Option ℚ` values (`none` = missing).
* External libraries called by the code (the `haversine` package, the
  `polyline` decoder, and the Python `float` parser) are abstracted as
  oracle functions bundled in `ExternalLibs`; the code only forwards their
  results, it never inspects them.
* `requests`/pandas I/O is replaced by explicit response values passed per
  call; pandas tables are lists of rows (plus explicit column lists where a
  claim is about the schema).
* Python exceptions are modelled with `Except String`.
-/

deriving instance DecidableEq for Except

/-! ### Pydantic response models (src/utils/fetching/models/google_maps_routes_response.py) -/

/-- `RoutePolyline`: `encodedPolyline : Optional[str]`. -/
structure RoutePolyline where
  encodedPolyline : Option String
  deriving DecidableEq

/-- `Route`: `distanceMeters : Optional[int]`, `duration : Optional[str]`,
`polyline : Optional[RoutePolyline]`. -/
structure Route where
  distanceMeters : Option Int
  duration : Option String
  polyline : Option RoutePolyline
  deriving DecidableEq

/-- `RouteResponse`: `routes : Optional[list[Route]]`. -/
structure RouteResponse where
  routes : Option (List Route)
  deriving DecidableEq

/-- One HTTP exchange with the directions service as
`GoogleMapsRouteFetcher.__fetch_route` sees it: the status code, and the
parsed body (`none` when pydantic validation raised). -/
structure RoutesApiResp where
  status : Nat
  parsed : Option RouteResponse
  deriving DecidableEq

/-- The external libraries used by `routes.py`: `haversine(.., unit=METERS)`,
`polyline.decode`, and the Python `float` constructor (`none` = `ValueError`). -/
structure ExternalLibs where
  haversineMeters : ℚ × ℚ → ℚ × ℚ → ℚ
  polylineDecode : String → List (ℚ × ℚ)
  pyFloat : String → Option ℚ

/-! ### GoogleMapsRouteFetcher (src/utils/fetching/routes.py) -/

/-- `__fetch_route`: non-200 status, a parsing error, or a missing/empty
`routes` list all yield `None`; otherwise the first route is returned. -/
def fetchRoute (resp : RoutesApiResp) : Option Route :=
  if resp.status ≠ 200 then none
  else
    match resp.parsed with
    | none => none
    | some data =>
      match data.routes with
      | none => none
      | some [] => none
      | some (r :: _) => some r

/-- Python `duration.replace("s", "")`: for this one-character pattern,
replacing with the empty string drops every `s`. -/
def stripS (s : String) : String :=
  ⟨s.data.filter (fun c => c ≠ 's')⟩

/-- `np.linspace(a, b, n)` over exact rationals: `n` evenly spaced values
with step `(b - a) / (n - 1)` (numpy pins the final value to `b`, which the
exact formula already gives for `n ≥ 2`). -/
def linspace (a b : ℚ) (n : Nat) : List ℚ :=
  (List.range n).map (fun i : Nat => a + (b - a) * (i : ℚ) / ((n - 1 : Nat) : ℚ))

/-- `GoogleMapsRouteFetcher._generate_intermediate_points`: `numPoints`
intermediate points, endpoints included (`numPoints + 2` in total). -/
def generateIntermediatePoints (pStart pDest : ℚ × ℚ) (numPoints : Nat) : List (ℚ × ℚ) :=
  (linspace pStart.1 pDest.1 (numPoints + 2)).zip (linspace pStart.2 pDest.2 (numPoints + 2))

/-- `GoogleMapsRouteFetcher.__handle_missing_data`: haversine distance in
meters plus the synthetic 27-point path (the call site uses the default
`num_points = 25`). -/
def handleMissingData (ext : ExternalLibs) (start_lat start_lon dest_lat dest_lon : ℚ) :
    ℚ × List (ℚ × ℚ) :=
  (ext.haversineMeters (start_lat, start_lon) (dest_lat, dest_lon),
   generateIntermediatePoints (start_lat, start_lon) (dest_lat, dest_lon) 25)

/-- One appended row of `__data_dict`, in `DATA_DICT_KEYS` order. -/
structure RouteRow where
  start_lat : ℚ
  start_lon : ℚ
  dest_lat : ℚ
  dest_lon : ℚ
  distance_m : Option ℚ
  duration_s : Option ℚ
  encoded_polyline_str : Option String
  decoded_polyline : List (ℚ × ℚ)
  deriving DecidableEq

/-- `__data_dict`: one list per key of `DATA_DICT_KEYS`. -/
structure RouteDataDict where
  start_lat : List ℚ
  start_lon : List ℚ
  dest_lat : List ℚ
  dest_lon : List ℚ
  distance_m : List (Option ℚ)
  duration_s : List (Option ℚ)
  encoded_polyline_str : List (Option String)
  decoded_polyline : List (List (ℚ × ℚ))
  deriving DecidableEq

/-- The dict as `__init__` builds it: an empty list per key. -/
def emptyRouteDataDict : RouteDataDict :=
  ⟨[], [], [], [], [], [], [], []⟩

/-- The `for key, value in zip(self.DATA_DICT_KEYS, values)` append loop. -/
def appendRow (st : RouteDataDict) (r : RouteRow) : RouteDataDict :=
  ⟨st.start_lat ++ [r.start_lat], st.start_lon ++ [r.start_lon],
   st.dest_lat ++ [r.dest_lat], st.dest_lon ++ [r.dest_lon],
   st.distance_m ++ [r.distance_m], st.duration_s ++ [r.duration_s],
   st.encoded_polyline_str ++ [r.encoded_polyline_str],
   st.decoded_polyline ++ [r.decoded_polyline]⟩

/-- The `values` list of `get_route`, computed before the append loop.
In the measured branch the code reads `route.polyline.encodedPolyline`
(raising `AttributeError` when `polyline` is `None`), then
`_handle_original_response_data` calls `duration.replace` (raising when
`duration` is `None`), `float(...)` (`ValueError` on a bad string) and
`decode(...)` (raising when the encoded polyline is `None`). -/
def computeRouteRow (ext : ExternalLibs) (resp : RoutesApiResp)
    (start_lat start_lon dest_lat dest_lon : ℚ) : Except String RouteRow :=
  match fetchRoute resp with
  | some route =>
    match route.polyline with
    | none => .error "AttributeError: NoneType has no attribute encodedPolyline"
    | some poly =>
      match route.duration with
      | none => .error "AttributeError: NoneType has no attribute replace"
      | some dur =>
        match ext.pyFloat (stripS dur) with
        | none => .error "ValueError: could not convert string to float"
        | some durS =>
          match poly.encodedPolyline with
          | none => .error "TypeError: polyline.decode of None"
          | some enc =>
            .ok ⟨start_lat, start_lon, dest_lat, dest_lon,
                 route.distanceMeters.map (fun z => (z : ℚ)), some durS,
                 some enc, ext.polylineDecode enc⟩
  | none =>
    .ok ⟨start_lat, start_lon, dest_lat, dest_lon,
         some (handleMissingData ext start_lat start_lon dest_lat dest_lon).1,
         none, none,
         (handleMissingData ext start_lat start_lon dest_lat dest_lon).2⟩

/-- `GoogleMapsRouteFetcher.get_route`: compute the row, then append it to
every column of the accumulator; a raised exception leaves the state as is. -/
def getRoute (ext : ExternalLibs) (resp : RoutesApiResp)
    (start_lat start_lon dest_lat dest_lon : ℚ) (st : RouteDataDict) :
    Except String RouteDataDict :=
  (computeRouteRow ext resp start_lat start_lon dest_lat dest_lon).map (appendRow st)

/-- `GoogleMapsRouteFetcher.get_routes_data`: `pd.DataFrame(self.__data_dict)`
copies the column lists into a fresh table and mutates nothing. -/
def getRoutesData (st : RouteDataDict) : RouteDataDict := st

/-- The resolve/drain pair as the spec describes it: draining yields the
post-call state together with the snapshot table. -/
def drain (st : RouteDataDict) : RouteDataDict × RouteDataDict :=
  (st, getRoutesData st)

/-- One `get_route` invocation: its four coordinate arguments and the
directions response the service produced for it. -/
structure RouteCall where
  start_lat : ℚ
  start_lon : ℚ
  dest_lat : ℚ
  dest_lon : ℚ
  resp : RoutesApiResp
  deriving DecidableEq

/-- A sequence of `get_route` calls run against an accumulator state. -/
def runRouteCalls (ext : ExternalLibs) : List RouteCall → RouteDataDict →
    Except String RouteDataDict
  | [], st => .ok st
  | c :: cs, st =>
    match getRoute ext c.resp c.start_lat c.start_lon c.dest_lat c.dest_lon st with
    | .error e => .error e
    | .ok st2 => runRouteCalls ext cs st2

/-! ### Shared list helpers -/

/-- `DataComposer._unique_list_preserve_order`, i.e. `list(dict.fromkeys(xs))`:
fold left, inserting each element at the end the first time it is seen. -/
def uniquePreserveOrder {α : Type} [DecidableEq α] (l : List α) : List α :=
  l.foldl (fun acc x => if x ∈ acc then acc else acc ++ [x]) []

/-- The behaviour the spec words describe for unique extraction: the distinct
elements in first-seen order, later duplicates removed (stated recursively,
to be compared with the fold the source performs). -/
def firstSeenDistinct {α : Type} [DecidableEq α] : List α → List α
  | [] => []
  | x :: xs => x :: firstSeenDistinct (xs.filter (fun y => y ≠ x))
termination_by l => l.length
decreasing_by
  simp only [List.length_cons]
  exact Nat.lt_succ_of_le (List.length_filter_le _ _)

/-- pandas `drop_duplicates(subset=..., keep="first")`: keep each row whose
key has not been seen before, in order. -/
def dropDupFirst {α K : Type} [DecidableEq K] (key : α → K) (l : List α) : List α :=
  l.foldl (fun acc x => if acc.any (fun y => key y = key x) then acc else acc ++ [x]) []

/-- pandas `groupby(key)` restricted to what the claims need: one group per
distinct key, each holding its rows in original order. (pandas lists the
groups in sorted key order; no stated property depends on the order of the
groups themselves, so first-occurrence order is used here.) -/
def groupByKey {α K : Type} [DecidableEq K] (key : α → K) (l : List α) :
    List (K × List α) :=
  (uniquePreserveOrder (l.map key)).map (fun k => (k, l.filter (fun x => key x = k)))

/-! ### GoogleMapsGeocoder (src/utils/fetching/geocoding.py) -/

/-- `geometry.location` of a geocoding result. -/
structure GeoResult where
  lat : ℚ
  lng : ℚ
  deriving DecidableEq

/-- The parsed `GMGeolocator` body: overall status string and result list. -/
structure GeoBody where
  status : String
  results : List GeoResult
  deriving DecidableEq

/-- One HTTP exchange with the geocoding service: status code and parsed
body (`none` when pydantic validation raised). -/
structure GeoResp where
  httpStatus : Nat
  body : Option GeoBody
  deriving DecidableEq

/-- One row of the list `batch_geocode` returns. -/
structure GeoRow where
  stacja : String
  lat : Option ℚ
  lon : Option ℚ
  deriving DecidableEq

/-- `GoogleMapsGeocoder.ADDITIONAL_PATTERN`. -/
def railPattern : String := ", railway station"

/-- `GoogleMapsGeocoder.__fetch_geocode`: non-200 status, a parsing error, a
non-OK status string or an empty result list all yield `None`; otherwise the
first result. -/
def fetchGeocode (resp : GeoResp) : Option GeoResult :=
  if resp.httpStatus ≠ 200 then none
  else
    match resp.body with
    | none => none
    | some b => if b.status = "OK" ∧ b.results ≠ [] then b.results.head? else none

/-- Python `str.replace(pat, "")` on character lists: scan left to right,
dropping each non-overlapping occurrence of `pat`. The fuel argument (the
length of the scanned list at the top call) makes the recursion structural;
one unit of fuel is spent per step and each step consumes at least one
character, so the fuel never runs out on a top-level call. -/
def pyReplaceFuel (pat : List Char) : Nat → List Char → List Char
  | _, [] => []
  | 0, s => s
  | fuel + 1, c :: rest =>
    if 0 < pat.length ∧ (c :: rest).take pat.length = pat then
      pyReplaceFuel pat fuel ((c :: rest).drop pat.length)
    else c :: pyReplaceFuel pat fuel rest

/-- Python `s.replace(pat, "")`. -/
def pyReplace (s pat : String) : String :=
  ⟨pyReplaceFuel pat.data s.data.length s.data⟩

/-- Whether `pat` occurs as a contiguous run inside `s`. -/
def occursB (pat s : List Char) : Bool :=
  (List.range (s.length + 1)).any (fun i => (s.drop i).take pat.length = pat)

/-- `GoogleMapsGeocoder.batch_geocode`: one row per location, in order; the
query string is the location with `railPattern` appended, the stored name is
`location.replace(ADDITIONAL_PATTERN, "")`, and a failed fetch leaves both
coordinates `None`. `orc` maps each query string to the service response. -/
def batchGeocode (orc : String → GeoResp) (locations : List String) : List GeoRow :=
  locations.map (fun loc =>
    let result := fetchGeocode (orc (loc ++ railPattern))
    ⟨pyReplace loc railPattern, result.map GeoResult.lat, result.map GeoResult.lng⟩)

/-! ### WeatherDataFetcher (src/utils/fetching/weather.py)

The pydantic module `models/weather_response.py` is not part of the sources;
per the spec the hourly schema is "a fixed schema matching the upstream
response's hourly-record fields". The field-name list `HOURLY_DATA_MODEL_ATTRS`
is therefore abstracted as the `hourlyAttrs` parameter and one parsed hourly
record as an opaque type `V`. -/

/-- One weather HTTP exchange: status code, and the parsed hourly records of
`days[0].hours` (`none` when validation or indexing raised inside the `try`). -/
structure WeatherResp (V : Type) where
  status : Nat
  body : Option (List V)
  deriving DecidableEq

/-- A weather table: its column names, and one row per hour (the parsed
hourly record plus the injected `lat`/`lon` values). -/
structure WeatherTable (V : Type) where
  cols : List String
  rows : List (V × ℚ × ℚ)
  deriving DecidableEq

/-- `WeatherDataFetcher.__fetch_weather`. Modelled from the spec for the
hourly field names only (see above); the control flow is from the source:
a non-200 status returns `None`; an exception while parsing or while reading
`days[0].hours` returns `pd.DataFrame(columns=HOURLY_DATA_MODEL_ATTRS)` — an
empty table whose columns are the hourly attributes alone; success returns
the hourly rows with `lat`/`lon` columns appended. -/
def fetchWeather {V : Type} (hourlyAttrs : List String) (resp : WeatherResp V)
    (lat lon : ℚ) : Option (WeatherTable V) :=
  if resp.status ≠ 200 then none
  else
    match resp.body with
    | none => some ⟨hourlyAttrs, []⟩
    | some hours => some ⟨hourlyAttrs ++ ["lat", "lon"], hours.map (fun h => (h, lat, lon))⟩

/-- `WeatherDataFetcher.batch_fetch_weather`: fetch per (lat, lon, date) row,
then `pd.concat(results, ignore_index=True)` — `None` entries are silently
dropped; when nothing remains, `pd.concat` raises `ValueError`; otherwise the
rows are concatenated and the columns united in order of first appearance. -/
def batchFetchWeather {V : Type} [DecidableEq V] (hourlyAttrs : List String)
    (pairs : List (ℚ × ℚ × WeatherResp V)) : Except String (WeatherTable V) :=
  match (pairs.map (fun p => fetchWeather hourlyAttrs p.2.2 p.1 p.2.1)).filterMap id with
  | [] => .error "ValueError: no objects to concatenate"
  | t :: ts =>
    .ok ⟨uniquePreserveOrder ((t :: ts).flatMap WeatherTable.cols),
         (t :: ts).flatMap WeatherTable.rows⟩

/-! ### DataComposer (src/utils/preprocessing/composition.py) -/

/-- One raw delay record as `__prepare_input_for_routes_data_fetching` uses
it: the journey id injected by the loader, the relation and the station
columns (the remaining columns play no role in the claims). -/
structure RawRecord where
  id : Nat
  relacja : String
  stacja : String
  deriving DecidableEq

/-- The `full_route_station_count` helper column:
`groupby([id, relacja])[relacja].transform("count")` — the number of raw
records in the record's `(id, relacja)` partition, computed before any
de-duplication. -/
def fullRouteStationCount (records : List RawRecord) (r : RawRecord) : Nat :=
  (records.filter (fun s => s.id = r.id ∧ s.relacja = r.relacja)).length

/-- The journey groups built by `__prepare_input_for_routes_data_fetching`:
drop duplicate `(id, relacja, stacja)` rows, group by
`(relacja, full_route_station_count)` and aggregate the station column with
`_unique_list_preserve_order`. One entry per group: its `(relation, count)`
key and its ordered station list. -/
def journeyGroups (records : List RawRecord) : List ((String × Nat) × List String) :=
  (groupByKey (fun r => (r.relacja, fullRouteStationCount records r))
      (dropDupFirst (fun r => (r.id, r.relacja, r.stacja)) records)).map
    (fun p => (p.1, uniquePreserveOrder (p.2.map RawRecord.stacja)))

/-- One row of the exploded routes input: the group key, the relation and
one station. The Python key column is the string
`relacja + "_" + str(station_list)`; it is modelled as the injective pair
`(relacja, station_list)` it encodes. -/
structure RouteInputRow where
  key : String × List String
  relacja : String
  stacja : String
  deriving DecidableEq

/-- The end of `__prepare_input_for_routes_data_fetching`: build the key,
explode the station lists, keep `[key, relacja, stacja]` and drop duplicate
rows. -/
def routesInputRows (records : List RawRecord) : List RouteInputRow :=
  dropDupFirst (fun r => r)
    ((journeyGroups records).flatMap
      (fun p => p.2.map (fun s => ⟨(p.1.1, p.2), p.1.1, s⟩)))

/-- One row of the stations table produced by the stations phase (geocoding
output): station name and nullable coordinates. -/
structure StationRow where
  stacja : String
  lat : Option ℚ
  lon : Option ℚ
  deriving DecidableEq

/-- A routes-input row after the left merge with the stations table: a
station absent from the table gets NaN coordinates (`none`). -/
structure MergedRow where
  key : String × List String
  relacja : String
  stacja : String
  lat : Option ℚ
  lon : Option ℚ
  deriving DecidableEq

/-- `merge(stations, how="left", on="stacja")`: every left row is kept in
order; each match contributes a row, and no match yields one row with null
coordinates. -/
def leftMergeStations (rows : List RouteInputRow) (stations : List StationRow) :
    List MergedRow :=
  rows.flatMap (fun r =>
    match stations.filter (fun s => s.stacja = r.stacja) with
    | [] => [⟨r.key, r.relacja, r.stacja, none, none⟩]
    | m :: ms => (m :: ms).map (fun s => ⟨r.key, r.relacja, r.stacja, s.lat, s.lon⟩))

/-- The arguments of one `get_route` call the routes phase makes:
`(previous.lat, previous.lon, current.lat, current.lon)`, each possibly NaN
after the left merge. -/
structure LegCall where
  start_lat : Option ℚ
  start_lon : Option ℚ
  dest_lat : Option ℚ
  dest_lon : Option ℚ
  deriving DecidableEq

/-- The `for i in range(1, max_indice)` loop of `__compose_routes_data` over
one group's rows: one leg per adjacent pair of consecutive positions, row
`i - 1` as origin and row `i` as destination. -/
def adjacentLegs (g : List MergedRow) : List LegCall :=
  (g.zip g.tail).map (fun p => ⟨p.1.lat, p.1.lon, p.2.lat, p.2.lon⟩)

/-- `__compose_routes_data` after its input is prepared: group the merged
rows by the key column and emit every group's adjacent legs. -/
def composeRoutesCalls (rows : List MergedRow) : List LegCall :=
  (groupByKey MergedRow.key rows).flatMap (fun p => adjacentLegs p.2)

/-- The whole routes phase from the raw records and a stations table to the
`get_route` call sequence. The class constant `DEBUG = True` truncates the
merged input to its first two rows before grouping (a debug switch the spec
lists as an embedded artifact); it is modelled by the explicit `debug` flag,
`false` giving the untruncated production path. -/
def routePhaseCalls (debug : Bool) (records : List RawRecord)
    (stations : List StationRow) : List LegCall :=
  composeRoutesCalls
    (if debug then (leftMergeStations (routesInputRows records) stations).take 2
     else leftMergeStations (routesInputRows records) stations)

/-! ### Orchestration (`run_composing` and `SaveMethodSelector`) -/

/-- An observable action of the orchestrator: a phase computing its table, or
the table being handed to the Output Writer (`SaveMethodSelector.save`) under
a data-type name and a format. -/
inductive ComposeEvent where
  | phase (name : String)
  | save (dataType : String) (fmt : String)
  deriving DecidableEq

/-- The keys of `SaveMethodSelector.save_method_caller`. -/
def saveFormats : List String := ["csv", "parquet", "shp", "shp_csv", "shp_parquet"]

/-- `SaveMethodSelector.save`: an unsupported format raises `ValueError`,
otherwise the table is written under the given data type and format. -/
def saveTableEvents (dataType fmt : String) : Except String (List ComposeEvent) :=
  if fmt ∈ saveFormats then .ok [ComposeEvent.save dataType fmt]
  else .error "ValueError: unsupported format"

/-- `__compose_stations_data`: geocode the stations, then save the table when
`autosave` is set. -/
def composeStationsEvents (autosave : Bool) (fmt : String) :
    Except String (List ComposeEvent) :=
  if autosave then
    match saveTableEvents "stations" fmt with
    | .error e => .error e
    | .ok evs => .ok (ComposeEvent.phase "stations" :: evs)
  else .ok [ComposeEvent.phase "stations"]

/-- `__compose_weather_data`: fetch the weather, then save the table when
`autosave` is set. -/
def composeWeatherEvents (autosave : Bool) (fmt : String) :
    Except String (List ComposeEvent) :=
  if autosave then
    match saveTableEvents "weather" fmt with
    | .error e => .error e
    | .ok evs => .ok (ComposeEvent.phase "weather" :: evs)
  else .ok [ComposeEvent.phase "weather"]

/-- `__compose_routes_data`: resolve the legs and build `routes_df`, then
only `print` it — the method accepts `save_format` and constructs
`SaveMethodSelector("routes")` but never calls `save`, whatever `autosave`
and the format are. -/
def composeRoutesEvents (_autosave : Bool) (_fmt : String) :
    Except String (List ComposeEvent) :=
  .ok [ComposeEvent.phase "routes"]

/-- `DataComposer.run_composing`: the three phases in program order, each
propagating its exception and aborting the rest. -/
def runComposing (autosave : Bool) (stationsFmt weatherFmt routesFmt : String) :
    Except String (List ComposeEvent) := do
  let e1 ← composeStationsEvents autosave stationsFmt
  let e2 ← composeWeatherEvents autosave weatherFmt
  let e3 ← composeRoutesEvents autosave routesFmt
  pure (e1 ++ e2 ++ e3)

/-! ### Concrete instances used by witnesses and counterexamples -/

/-- A concrete oracle bundle for closed instances: the external libraries
may return anything, so constant functions serve. -/
def extDummy : ExternalLibs :=
  ⟨fun _ _ => 0, fun _ => [], fun _ => some 0⟩

/-- A directions response carrying one fully populated route. -/
def respMeasured : RoutesApiResp :=
  ⟨200, some ⟨some [⟨some 5, some "10s", some ⟨some "ab"⟩⟩]⟩⟩

/-- One measured `get_route` call. -/
def callW : RouteCall := ⟨1, 2, 3, 4, respMeasured⟩

/-- The accumulator after running `callW` from the empty dict with `extDummy`. -/
def stW : RouteDataDict :=
  ⟨[1], [2], [3], [4], [some 5], [some 0], [some "ab"], [[]]⟩

/-- A nonempty accumulator state. -/
def stC : RouteDataDict :=
  ⟨[9], [9], [9], [9], [some 9], [none], [none], [[]]⟩

/-- `stC` after one further `callW` with `extDummy`. -/
def stC2 : RouteDataDict :=
  ⟨[9, 1], [9, 2], [9, 3], [9, 4], [some 9, some 5], [none, some 0],
   [none, some "ab"], [[], []]⟩

/-- Two journeys of relation `R1`, both visiting `X, Y, Z`. -/
def recsC3 : List RawRecord :=
  [⟨1, "R1", "X"⟩, ⟨1, "R1", "Y"⟩, ⟨1, "R1", "Z"⟩,
   ⟨2, "R1", "X"⟩, ⟨2, "R1", "Y"⟩, ⟨2, "R1", "Z"⟩]

/-- Coordinates for the stations of `recsC3`. -/
def stationsC3 : List StationRow :=
  [⟨"X", some 1, some 2⟩, ⟨"Y", some 3, some 4⟩, ⟨"Z", some 5, some 6⟩]

/-- Two journeys of relation `R1` with the same number of distinct stations
(two each) but different raw record counts: journey 1 lists `X, Y, X`
(station `X` recorded twice), journey 2 lists `X, W`. -/
def recsC3cex : List RawRecord :=
  [⟨1, "R1", "X"⟩, ⟨1, "R1", "Y"⟩, ⟨1, "R1", "X"⟩,
   ⟨2, "R1", "X"⟩, ⟨2, "R1", "W"⟩]

/-- One journey with a leg from `P` to `Q`. -/
def recsC4 : List RawRecord := [⟨1, "R1", "P"⟩, ⟨1, "R1", "Q"⟩]

/-- Stations table in which geocoding failed for `Q` (null coordinates). -/
def stationsC4 : List StationRow :=
  [⟨"P", some 1, some 2⟩, ⟨"Q", none, none⟩]

/-- A group key for the merged-row instances below. -/
def keyW : String × List String := ("R", ["a", "b", "c"])

/-- First merged row of the witness group. -/
def mrowW1 : MergedRow := ⟨keyW, "R", "a", some 1, some 2⟩

/-- Second merged row of the witness group. -/
def mrowW2 : MergedRow := ⟨keyW, "R", "b", some 3, some 4⟩

/-- Third merged row of the witness group. -/
def mrowW3 : MergedRow := ⟨keyW, "R", "c", some 5, some 6⟩

/-- A merged routes input of one three-station group. -/
def rowsW : List MergedRow := [mrowW1, mrowW2, mrowW3]

/-- A geocoding service that fails every request. -/
def orcFail : String → GeoResp := fun _ => ⟨500, none⟩

/-- Three (lat, lon, response) weather pairs: two succeed, the middle one
gets a non-success status. -/
def pairsW : List (ℚ × ℚ × WeatherResp Nat) :=
  [(1, 2, ⟨200, some [7, 8]⟩), (3, 4, ⟨500, some [9]⟩), (5, 6, ⟨200, some [5]⟩)]

/-- The batch weather table for `pairsW`: the failing pair contributes no
rows, the others keep theirs in order. -/
def tW : WeatherTable Nat :=
  ⟨["temp", "lat", "lon"], [(7, 1, 2), (8, 1, 2), (5, 5, 6)]⟩

/-! ### Helper lemmas: the route accumulator -/

/-- Whatever the response, an `ok` row of `computeRouteRow` carries the four
coordinate arguments of the call unchanged. -/
theorem computeRouteRow_coords (ext : ExternalLibs) (resp : RoutesApiResp)
    (a b c d : ℚ) (row : RouteRow)
    (h : computeRouteRow ext resp a b c d = .ok row) :
    row.start_lat = a ∧ row.start_lon = b ∧ row.dest_lat = c ∧ row.dest_lon = d := by
  unfold computeRouteRow at h
  repeat' split at h
  all_goals cases h
  all_goals exact ⟨rfl, rfl, rfl, rfl⟩

/-- A successful `get_route` is exactly an append of its computed row. -/
theorem getRoute_ok (ext : ExternalLibs) (resp : RoutesApiResp) (a b c d : ℚ)
    (st st2 : RouteDataDict) (h : getRoute ext resp a b c d st = .ok st2) :
    ∃ row, computeRouteRow ext resp a b c d = .ok row ∧ st2 = appendRow st row := by
  unfold getRoute at h
  cases hc : computeRouteRow ext resp a b c d with
  | error e => rw [hc] at h; simp [Except.map] at h
  | ok row =>
    rw [hc] at h
    simp only [Except.map] at h
    cases h
    exact ⟨row, rfl, rfl⟩

/-- A successful run of `get_route` calls appends exactly one row per call:
the coordinate columns gain the calls' coordinates in order, and every other
column gains one value per call. -/
theorem runRouteCalls_spec (ext : ExternalLibs) :
    ∀ (calls : List RouteCall) (st0 st1 : RouteDataDict),
      runRouteCalls ext calls st0 = .ok st1 →
      st1.start_lat = st0.start_lat ++ calls.map RouteCall.start_lat ∧
      st1.start_lon = st0.start_lon ++ calls.map RouteCall.start_lon ∧
      st1.dest_lat = st0.dest_lat ++ calls.map RouteCall.dest_lat ∧
      st1.dest_lon = st0.dest_lon ++ calls.map RouteCall.dest_lon ∧
      (∃ t, t.length = calls.length ∧ st1.distance_m = st0.distance_m ++ t) ∧
      (∃ t, t.length = calls.length ∧ st1.duration_s = st0.duration_s ++ t) ∧
      (∃ t, t.length = calls.length ∧
        st1.encoded_polyline_str = st0.encoded_polyline_str ++ t) ∧
      (∃ t, t.length = calls.length ∧
        st1.decoded_polyline = st0.decoded_polyline ++ t) := by
  intro calls
  induction calls with
  | nil =>
    intro st0 st1 h
    simp only [runRouteCalls] at h
    cases h
    exact ⟨by simp, by simp, by simp, by simp,
      ⟨[], by simp⟩, ⟨[], by simp⟩, ⟨[], by simp⟩, ⟨[], by simp⟩⟩
  | cons c cs ih =>
    intro st0 st1 h
    simp only [runRouteCalls] at h
    cases hg : getRoute ext c.resp c.start_lat c.start_lon c.dest_lat c.dest_lon st0 with
    | error e => rw [hg] at h; cases h
    | ok st2 =>
      rw [hg] at h
      obtain ⟨row, hrow, hst2⟩ := getRoute_ok ext c.resp _ _ _ _ st0 st2 hg
      obtain ⟨e1, e2, e3, e4⟩ := computeRouteRow_coords ext c.resp _ _ _ _ row hrow
      obtain ⟨g1, g2, g3, g4, ⟨t5, ht5, g5⟩, ⟨t6, ht6, g6⟩, ⟨t7, ht7, g7⟩, ⟨t8, ht8, g8⟩⟩ :=
        ih st2 st1 h
      subst hst2
      refine ⟨?_, ?_, ?_, ?_, ?_, ?_, ?_, ?_⟩
      · rw [g1]; simp [appendRow, e1]
      · rw [g2]; simp [appendRow, e2]
      · rw [g3]; simp [appendRow, e3]
      · rw [g4]; simp [appendRow, e4]
      · exact ⟨row.distance_m :: t5, by simp [ht5], by rw [g5]; simp [appendRow]⟩
      · exact ⟨row.duration_s :: t6, by simp [ht6], by rw [g6]; simp [appendRow]⟩
      · exact ⟨row.encoded_polyline_str :: t7, by simp [ht7], by rw [g7]; simp [appendRow]⟩
      · exact ⟨row.decoded_polyline :: t8, by simp [ht8], by rw [g8]; simp [appendRow]⟩

/-- Zipping two maps over the same list is a map of pairs. -/
theorem zip_map_pair {α β : Type} (f g : α → β) :
    ∀ l : List α, (l.map f).zip (l.map g) = l.map (fun x => (f x, g x)) := by
  intro l
  induction l with
  | nil => rfl
  | cons x xs ih => simp [ih]

/-- The synthetic path of `_generate_intermediate_points` with the default
25 intermediate points, written as one indexed formula. -/
theorem generateIntermediatePoints_formula (slat slon dlat dlon : ℚ) :
    generateIntermediatePoints (slat, slon) (dlat, dlon) 25 =
      (List.range 27).map (fun i : Nat =>
        (slat + (dlat - slat) * (i : ℚ) / 26, slon + (dlon - slon) * (i : ℚ) / 26)) := by
  unfold generateIntermediatePoints linspace
  rw [zip_map_pair]
  apply List.map_congr_left
  intro i _
  norm_num

/-- C1: for every sequence of completed `get_route` calls starting from the
fresh accumulator, draining via `get_routes_data` yields a table whose eight
columns all have one entry per call, and whose `i`-th coordinate entries are
exactly the `i`-th call's origin/destination coordinates, in call order. -/
theorem route_drain_matches_calls (ext : ExternalLibs) (calls : List RouteCall)
    (st : RouteDataDict) (h : runRouteCalls ext calls emptyRouteDataDict = .ok st) :
    (getRoutesData st).start_lat.length = calls.length ∧
    (getRoutesData st).start_lon.length = calls.length ∧
    (getRoutesData st).dest_lat.length = calls.length ∧
    (getRoutesData st).dest_lon.length = calls.length ∧
    (getRoutesData st).distance_m.length = calls.length ∧
    (getRoutesData st).duration_s.length = calls.length ∧
    (getRoutesData st).encoded_polyline_str.length = calls.length ∧
    (getRoutesData st).decoded_polyline.length = calls.length ∧
    ∀ i : Nat,
      (getRoutesData st).start_lat[i]? = (calls[i]?).map RouteCall.start_lat ∧
      (getRoutesData st).start_lon[i]? = (calls[i]?).map RouteCall.start_lon ∧
      (getRoutesData st).dest_lat[i]? = (calls[i]?).map RouteCall.dest_lat ∧
      (getRoutesData st).dest_lon[i]? = (calls[i]?).map RouteCall.dest_lon := by
  obtain ⟨g1, g2, g3, g4, ⟨t5, ht5, g5⟩, ⟨t6, ht6, g6⟩, ⟨t7, ht7, g7⟩, ⟨t8, ht8, g8⟩⟩ :=
    runRouteCalls_spec ext calls emptyRouteDataDict st h
  simp only [emptyRouteDataDict, List.nil_append] at g1 g2 g3 g4 g5 g6 g7 g8
  refine ⟨?_, ?_, ?_, ?_, ?_, ?_, ?_, ?_, ?_⟩
  · simp [getRoutesData, g1]
  · simp [getRoutesData, g2]
  · simp [getRoutesData, g3]
  · simp [getRoutesData, g4]
  · simp [getRoutesData, g5, ht5]
  · simp [getRoutesData, g6, ht6]
  · simp [getRoutesData, g7, ht7]
  · simp [getRoutesData, g8, ht8]
  · intro i
    refine ⟨?_, ?_, ?_, ?_⟩
    · simp [getRoutesData, g1, List.getElem?_map]
    · simp [getRoutesData, g2, List.getElem?_map]
    · simp [getRoutesData, g3, List.getElem?_map]
    · simp [getRoutesData, g4, List.getElem?_map]

/-- C1 witness: one call, run to completion; the drained table has one row
carrying the call's coordinates. -/
theorem route_drain_matches_calls_witness :
    (getRoutesData stW).start_lat.length = [callW].length ∧
    (getRoutesData stW).dest_lon.length = [callW].length :=
  ⟨(route_drain_matches_calls extDummy [callW] stW (by decide)).1,
   (route_drain_matches_calls extDummy [callW] stW (by decide)).2.2.2.1⟩

/-- C2: when the directions request yields no usable route, `get_route`
appends exactly one row with a null encoded polyline (estimated provenance),
a null duration, the haversine great-circle distance in meters as distance,
and a synthetic 27-point path, linearly interpolated in coordinate space and
evenly spaced in index, whose first point is the origin and whose last point
is the destination, both exactly. -/
theorem getRoute_fallback (ext : ExternalLibs) (resp : RoutesApiResp)
    (slat slon dlat dlon : ℚ) (st : RouteDataDict)
    (hresp : fetchRoute resp = none) :
    getRoute ext resp slat slon dlat dlon st =
      .ok (appendRow st ⟨slat, slon, dlat, dlon,
        some (ext.haversineMeters (slat, slon) (dlat, dlon)), none, none,
        generateIntermediatePoints (slat, slon) (dlat, dlon) 25⟩) ∧
    (generateIntermediatePoints (slat, slon) (dlat, dlon) 25).length = 27 ∧
    generateIntermediatePoints (slat, slon) (dlat, dlon) 25 =
      (List.range 27).map (fun i : Nat =>
        (slat + (dlat - slat) * (i : ℚ) / 26, slon + (dlon - slon) * (i : ℚ) / 26)) ∧
    (generateIntermediatePoints (slat, slon) (dlat, dlon) 25).head? =
      some (slat, slon) ∧
    (generateIntermediatePoints (slat, slon) (dlat, dlon) 25).getLast? =
      some (dlat, dlon) := by
  have hf := generateIntermediatePoints_formula slat slon dlat dlon
  refine ⟨?_, ?_, hf, ?_, ?_⟩
  · unfold getRoute computeRouteRow
    rw [hresp]
    rfl
  · rw [hf]; simp
  · rw [hf, List.head?_map]
    have h0 : (List.range 27).head? = some 0 := by decide
    rw [h0]
    norm_num
  · rw [hf, List.getLast?_map]
    have h26 : (List.range 27).getLast? = some 26 := by decide
    rw [h26]
    have h1 : slat + (dlat - slat) * ((26 : Nat) : ℚ) / 26 = dlat := by
      push_cast
      field_simp
    have h2 : slon + (dlon - slon) * ((26 : Nat) : ℚ) / 26 = dlon := by
      push_cast
      field_simp
    simp [h1, h2]

/-- C2 witness: a concrete failing response; the synthesized path has 27
points with the exact endpoints. -/
theorem getRoute_fallback_witness :
    fetchRoute ⟨500, none⟩ = none ∧
    (generateIntermediatePoints ((0 : ℚ), (0 : ℚ)) ((26 : ℚ), (52 : ℚ)) 25).length = 27 ∧
    (generateIntermediatePoints ((0 : ℚ), (0 : ℚ)) ((26 : ℚ), (52 : ℚ)) 25).head? =
      some (0, 0) ∧
    (generateIntermediatePoints ((0 : ℚ), (0 : ℚ)) ((26 : ℚ), (52 : ℚ)) 25).getLast? =
      some (26, 52) :=
  ⟨by decide,
   (getRoute_fallback extDummy ⟨500, none⟩ 0 0 26 52 emptyRouteDataDict (by decide)).2.1,
   (getRoute_fallback extDummy ⟨500, none⟩ 0 0 26 52 emptyRouteDataDict (by decide)).2.2.2.1,
   (getRoute_fallback extDummy ⟨500, none⟩ 0 0 26 52 emptyRouteDataDict (by decide)).2.2.2.2⟩

/-- C10: draining is non-destructive and idempotent — `get_routes_data`
leaves the accumulator unchanged, two consecutive drains with no intervening
call return equal tables, and a later drain after further completed calls
still extends every earlier column: the coordinate columns by exactly the new
calls' coordinates, the rest by one value per new call. -/
theorem drain_nondestructive (st : RouteDataDict) :
    (drain st).1 = st ∧
    (drain (drain st).1).2 = (drain st).2 ∧
    ∀ (ext : ExternalLibs) (calls : List RouteCall) (st2 : RouteDataDict),
      runRouteCalls ext calls (drain st).1 = .ok st2 →
      (drain st2).2.start_lat = (drain st).2.start_lat ++ calls.map RouteCall.start_lat ∧
      (drain st2).2.start_lon = (drain st).2.start_lon ++ calls.map RouteCall.start_lon ∧
      (drain st2).2.dest_lat = (drain st).2.dest_lat ++ calls.map RouteCall.dest_lat ∧
      (drain st2).2.dest_lon = (drain st).2.dest_lon ++ calls.map RouteCall.dest_lon ∧
      (∃ t, (drain st2).2.distance_m = (drain st).2.distance_m ++ t) ∧
      (∃ t, (drain st2).2.duration_s = (drain st).2.duration_s ++ t) ∧
      (∃ t, (drain st2).2.encoded_polyline_str = (drain st).2.encoded_polyline_str ++ t) ∧
      (∃ t, (drain st2).2.decoded_polyline = (drain st).2.decoded_polyline ++ t) := by
  refine ⟨rfl, rfl, ?_⟩
  intro ext calls st2 h
  obtain ⟨g1, g2, g3, g4, ⟨t5, _, g5⟩, ⟨t6, _, g6⟩, ⟨t7, _, g7⟩, ⟨t8, _, g8⟩⟩ :=
    runRouteCalls_spec ext calls st st2 h
  exact ⟨g1, g2, g3, g4, ⟨t5, g5⟩, ⟨t6, g6⟩, ⟨t7, g7⟩, ⟨t8, g8⟩⟩

/-- C10 witness: draining a concrete nonempty accumulator returns it intact,
and a drain after one further call extends the earlier table. -/
theorem drain_nondestructive_witness :
    (drain stC).1 = stC ∧
    (drain stC2).2.start_lat = (drain stC).2.start_lat ++ [callW].map RouteCall.start_lat :=
  ⟨(drain_nondestructive stC).1,
   ((drain_nondestructive stC).2.2 extDummy [callW] stC2 (by decide)).1⟩

/-! ### Helper lemmas: unique extraction -/

/-- Unfolding `firstSeenDistinct` at a cons cell. -/
theorem fsd_cons {α : Type} [DecidableEq α] (x : α) (xs : List α) :
    firstSeenDistinct (x :: xs) = x :: firstSeenDistinct (xs.filter (fun y => y ≠ x)) := by
  rw [firstSeenDistinct]

/-- `firstSeenDistinct` keeps exactly the members of its input. -/
theorem fsd_mem {α : Type} [DecidableEq α] :
    ∀ (n : Nat) (l : List α), l.length ≤ n →
      ∀ a : α, a ∈ firstSeenDistinct l ↔ a ∈ l := by
  intro n
  induction n with
  | zero =>
    intro l hl a
    have h0 : l = [] := List.length_eq_zero.mp (Nat.le_zero.mp hl)
    subst h0
    simp [firstSeenDistinct]
  | succ n ih =>
    intro l hl a
    match l with
    | [] => simp [firstSeenDistinct]
    | x :: xs =>
      rw [fsd_cons]
      have hlen : (xs.filter (fun y => y ≠ x)).length ≤ n :=
        le_trans (List.length_filter_le _ _) (Nat.le_of_succ_le_succ hl)
      simp only [List.mem_cons, ih _ hlen, List.mem_filter, decide_eq_true_eq]
      by_cases hax : a = x
      · simp [hax]
      · simp [hax]

/-- `firstSeenDistinct` has no duplicates. -/
theorem fsd_nodup {α : Type} [DecidableEq α] :
    ∀ (n : Nat) (l : List α), l.length ≤ n → (firstSeenDistinct l).Nodup := by
  intro n
  induction n with
  | zero =>
    intro l hl
    have h0 : l = [] := List.length_eq_zero.mp (Nat.le_zero.mp hl)
    subst h0
    simp [firstSeenDistinct]
  | succ n ih =>
    intro l hl
    match l with
    | [] => simp [firstSeenDistinct]
    | x :: xs =>
      rw [fsd_cons]
      have hlen : (xs.filter (fun y => y ≠ x)).length ≤ n :=
        le_trans (List.length_filter_le _ _) (Nat.le_of_succ_le_succ hl)
      refine List.nodup_cons.mpr ⟨?_, ih _ hlen⟩
      intro hx
      have := (fsd_mem n _ hlen x).mp hx
      simp [List.mem_filter] at this

/-- The insertion fold of `uniquePreserveOrder`, generalized over the
accumulator: it appends the not-yet-seen part in first-seen order. -/
theorem uniq_foldl {α : Type} [DecidableEq α] :
    ∀ (l acc : List α),
      List.foldl (fun acc x => if x ∈ acc then acc else acc ++ [x]) acc l =
        acc ++ firstSeenDistinct (l.filter (fun y => y ∉ acc)) := by
  intro l
  induction l with
  | nil => intro acc; simp [firstSeenDistinct]
  | cons x xs ih =>
    intro acc
    simp only [List.foldl_cons]
    by_cases hx : x ∈ acc
    · rw [if_pos hx, ih]
      have hfil : (x :: xs).filter (fun y => y ∉ acc) = xs.filter (fun y => y ∉ acc) := by
        simp [List.filter_cons, hx]
      rw [hfil]
    · rw [if_neg hx, ih]
      have hfil : (x :: xs).filter (fun y => y ∉ acc) =
          x :: xs.filter (fun y => y ∉ acc) := by
        simp [List.filter_cons, hx]
      rw [hfil, fsd_cons, List.filter_filter]
      have hpred : xs.filter (fun y => y ∉ acc ++ [x]) =
          xs.filter (fun a => decide (a ≠ x) && decide (a ∉ acc)) := by
        apply List.filter_congr
        intro a _
        by_cases h1 : a ∈ acc <;> by_cases h2 : a = x <;> simp [h1, h2]
      rw [hpred]
      simp

/-- C7: `_unique_list_preserve_order` returns the distinct elements in
first-seen order with later duplicates removed — it equals the recursive
first-seen normal form, is duplicate-free, keeps exactly the input's
members, and maps the example input to the example output. -/
theorem uniquePreserveOrder_spec (l : List String) :
    uniquePreserveOrder l = firstSeenDistinct l ∧
    (uniquePreserveOrder l).Nodup ∧
    (∀ a : String, a ∈ uniquePreserveOrder l ↔ a ∈ l) ∧
    uniquePreserveOrder ["A", "B", "A", "C", "B"] = ["A", "B", "C"] := by
  have he : uniquePreserveOrder l = firstSeenDistinct l := by
    unfold uniquePreserveOrder
    rw [uniq_foldl]
    have hfil : l.filter (fun y => y ∉ ([] : List String)) = l := by
      simp
    rw [hfil]
    simp
  refine ⟨he, ?_, ?_, by decide⟩
  · rw [he]; exact fsd_nodup l.length l le_rfl
  · intro a; rw [he]; exact fsd_mem l.length l le_rfl a

/-! ### Helper lemmas: adjacent pairs -/

/-- Zipping a list with its tail yields one pair per adjacent position. -/
theorem zip_tail_length {α : Type} (l : List α) :
    (l.zip l.tail).length = l.length - 1 := by
  rw [List.length_zip, List.length_tail]
  omega

/-- The `i`-th entry of a zip-with-tail is the `i`-th adjacent pair. -/
theorem zip_tail_getElem {α : Type} :
    ∀ (l : List α) (i : Nat) (a b : α), l[i]? = some a → l[i + 1]? = some b →
      (l.zip l.tail)[i]? = some (a, b) := by
  intro l
  induction l with
  | nil => intro i a b h1 _; simp at h1
  | cons c rest ih =>
    intro i a b h1 h2
    match rest, i with
    | [], 0 => simp at h2
    | [], j + 1 => simp at h2
    | d :: rest2, 0 =>
      rw [List.getElem?_cons_zero] at h1
      rw [List.getElem?_cons_succ, List.getElem?_cons_zero] at h2
      cases h1
      cases h2
      simp [List.tail_cons, List.zip_cons_cons]
    | d :: rest2, j + 1 =>
      rw [List.getElem?_cons_succ] at h1 h2
      simp only [List.tail_cons, List.zip_cons_cons, List.getElem?_cons_succ]
      have hih := ih j a b h1 h2
      simpa [List.tail_cons] using hih

/-- C6: for every group the routes phase forms from its merged input, the
leg loop emits exactly `N - 1` legs for the group's `N` rows, the `i`-th leg
joining rows `i` and `i + 1` in adjacent-pair order; the phase's call list is
the concatenation of the groups' legs. -/
theorem legs_per_group (rows : List MergedRow) (k : String × List String)
    (g : List MergedRow) (_hg : (k, g) ∈ groupByKey MergedRow.key rows) :
    (adjacentLegs g).length = g.length - 1 ∧
    (∀ (i : Nat) (a b : MergedRow), g[i]? = some a → g[i + 1]? = some b →
      (adjacentLegs g)[i]? = some ⟨a.lat, a.lon, b.lat, b.lon⟩) ∧
    composeRoutesCalls rows =
      (groupByKey MergedRow.key rows).flatMap (fun p => adjacentLegs p.2) := by
  refine ⟨?_, ?_, rfl⟩
  · rw [adjacentLegs, List.length_map, zip_tail_length]
  · intro i a b h1 h2
    rw [adjacentLegs, List.getElem?_map, zip_tail_getElem g i a b h1 h2]
    rfl

/-- C6 witness: a concrete three-row group yields two legs, the first one
joining the first two rows. -/
theorem legs_per_group_witness :
    (adjacentLegs rowsW).length = rowsW.length - 1 ∧
    (adjacentLegs rowsW)[0]? = some ⟨mrowW1.lat, mrowW1.lon, mrowW2.lat, mrowW2.lon⟩ :=
  ⟨(legs_per_group rowsW keyW rowsW (by decide)).1,
   (legs_per_group rowsW keyW rowsW (by decide)).2.1 0 mrowW1 mrowW2 rfl rfl⟩

/-- C3 counterexample: two journeys of one relation with the same number of
distinct stations (two each) are NOT aggregated into one `JourneyGroup`. The
grouping key uses `full_route_station_count`, the raw record count of the
`(id, relacja)` partition computed before de-duplication: journey 1 lists
`X, Y, X` (three raw records, two distinct stations) and journey 2 lists
`X, W` (two raw records, two distinct stations), and the code produces two
groups, keyed `("R1", 3)` and `("R1", 2)`, with different station sequences
`[X, Y]` and `[X, W]` — not the single merged group the claim implies. -/
theorem journeyGroups_distinct_count_cex :
    (uniquePreserveOrder ["X", "Y", "X"]).length = 2 ∧
    (uniquePreserveOrder ["X", "W"]).length = 2 ∧
    (journeyGroups recsC3cex).length = 2 ∧
    journeyGroups recsC3cex = [(("R1", 3), ["X", "Y"]), (("R1", 2), ["X", "W"])] := by
  decide

/-- C3 amended: partitions are aggregated by `(relation, raw record count of
the (id, relation) partition)`; when every journey records each station once
— as in the spec's scenario — this count equals the distinct-station count,
and raw records for relation `R1` with journey 1 visiting `X, Y, Z` and
journey 2 visiting `X, Y, Z` collapse into the single group
`(("R1", 3), [X, Y, Z])`, the routes phase producing each adjacent leg
exactly once, not duplicated per journey id. -/
theorem journeyGroups_scenario :
    journeyGroups recsC3 = [(("R1", 3), ["X", "Y", "Z"])] ∧
    routePhaseCalls false recsC3 stationsC3 =
      [⟨some 1, some 2, some 3, some 4⟩, ⟨some 3, some 4, some 5, some 6⟩] := by
  decide

/-- C4 counterexample: station `Q` failed geocoding (null coordinates), yet
the leg from `P` to `Q` is not skipped — the routes phase still emits exactly
one `get_route` call for it, carrying `P`'s coordinates and null (NaN)
destination coordinates, so a `RouteResult` with null endpoints is recorded
rather than the leg being skipped and reported. -/
theorem null_leg_not_skipped_cex :
    routePhaseCalls false recsC4 stationsC4 = [⟨some 1, some 2, none, none⟩] ∧
    (routePhaseCalls false recsC4 stationsC4).length ≠ 0 := by
  decide

/-- C4 amended: a leg with an unresolved endpoint is not skipped: the routes
phase submits it to the Route Resolver exactly once, with the unresolved
endpoint passed as a null (NaN) coordinate, and the resolver appends a
fallback `RouteResult` for it. -/
theorem null_leg_amended :
    (routePhaseCalls false recsC4 stationsC4).length = 1 ∧
    (routePhaseCalls false recsC4 stationsC4).map LegCall.dest_lat = [none] ∧
    (routePhaseCalls false recsC4 stationsC4).map LegCall.dest_lon = [none] := by
  decide

/-- C8: the orchestrator runs the three phases strictly in the order
stations, weather, routes, and hands the stations and weather tables to the
Output Writer before the next phase begins — but the routes table is never
handed to the Output Writer at all: `__compose_routes_data` accepts the
`routes_data_save_format` argument and builds `SaveMethodSelector("routes")`,
yet only prints `routes_df` and never calls `save`. -/
theorem runComposing_routes_not_saved :
    runComposing true "csv" "parquet" "shp" =
      .ok [ComposeEvent.phase "stations", ComposeEvent.save "stations" "csv",
           ComposeEvent.phase "weather", ComposeEvent.save "weather" "parquet",
           ComposeEvent.phase "routes"] ∧
    ([ComposeEvent.phase "stations", ComposeEvent.save "stations" "csv",
      ComposeEvent.phase "weather", ComposeEvent.save "weather" "parquet",
      ComposeEvent.phase "routes"].filter
        (fun e => e = ComposeEvent.save "routes" "shp")).length = 0 := by
  decide

/-! ### Helper lemmas: weather concatenation and string replacement -/

/-- Flat-mapping over a `filterMap` keeps one block per hit, nothing per
miss. -/
theorem flatMap_filterMap {α β γ : Type} (f : α → Option β) (g : β → List γ) :
    ∀ l : List α,
      (l.filterMap f).flatMap g = l.flatMap (fun a => ((f a).map g).getD []) := by
  intro l
  induction l with
  | nil => rfl
  | cons x xs ih =>
    rw [List.filterMap_cons]
    cases hf : f x with
    | none => simp [hf, ih]
    | some b => simp [hf, ih]

/-- When `pat` does not occur in `s`, the replacement scan copies `s`
verbatim (with at least `s.length` fuel). -/
theorem pyReplaceFuel_no_occurrence (pat : List Char) :
    ∀ (s : List Char) (fuel : Nat), s.length ≤ fuel → occursB pat s = false →
      pyReplaceFuel pat fuel s = s := by
  intro s
  induction s with
  | nil => intro fuel _ _; cases fuel <;> rfl
  | cons c rest ih =>
    intro fuel hlen hocc
    cases fuel with
    | zero => simp at hlen
    | succ f =>
      have hcond : ¬(0 < pat.length ∧ (c :: rest).take pat.length = pat) := by
        rintro ⟨_, htake⟩
        have hw : occursB pat (c :: rest) = true := by
          simp only [occursB, List.any_eq_true]
          refine ⟨0, ?_, ?_⟩
          · simp
          · simpa using htake
        rw [hw] at hocc
        cases hocc
      have hocc2 : occursB pat rest = false := by
        by_contra hr
        rw [Bool.not_eq_false] at hr
        simp only [occursB, List.any_eq_true] at hr
        obtain ⟨i, hi, hp⟩ := hr
        rw [List.mem_range] at hi
        rw [decide_eq_true_eq] at hp
        have hw : occursB pat (c :: rest) = true := by
          simp only [occursB, List.any_eq_true]
          refine ⟨i + 1, ?_, ?_⟩
          · rw [List.mem_range, List.length_cons]; omega
          · rw [decide_eq_true_eq, List.drop_succ_cons]; exact hp
        rw [hw] at hocc
        cases hocc
      simp only [pyReplaceFuel, if_neg hcond]
      rw [ih f (by simpa using Nat.le_of_succ_le_succ hlen) hocc2]

/-- C5 counterexample: a weather fetch with a non-success status returns
`None` — not an empty table with the success schema — and the empty table
returned for a malformed payload has only the hourly columns, without the
injected `lat`/`lon`. -/
theorem fetchWeather_failure_cex :
    fetchWeather ["temp"] (⟨500, some [1, 2]⟩ : WeatherResp Nat) 1 2 = none ∧
    fetchWeather ["temp"] (⟨200, none⟩ : WeatherResp Nat) 1 2 = some ⟨["temp"], []⟩ ∧
    (["temp"].filter (fun c => c = "lat")).length = 0 ∧
    (["temp"].filter (fun c => c = "lon")).length = 0 := by
  decide

/-- C5 amended: a non-success fetch returns null (which the batch
concatenation silently drops); a success-status malformed payload returns an
empty table whose schema is the hourly attributes without the injected
lat/lon columns; a successful fetch returns the hourly rows with lat/lon
appended; and the batch table's rows are exactly the successful pairs' rows
in order — every failing pair simply absent. -/
theorem fetchWeather_amended {V : Type} [DecidableEq V] (attrs : List String)
    (pairs : List (ℚ × ℚ × WeatherResp V)) :
    (∀ (lat lon : ℚ) (resp : WeatherResp V), resp.status ≠ 200 →
      fetchWeather attrs resp lat lon = none) ∧
    (∀ lat lon : ℚ,
      fetchWeather attrs (⟨200, none⟩ : WeatherResp V) lat lon = some ⟨attrs, []⟩) ∧
    (∀ (lat lon : ℚ) (hours : List V),
      fetchWeather attrs (⟨200, some hours⟩ : WeatherResp V) lat lon =
        some ⟨attrs ++ ["lat", "lon"], hours.map (fun h => (h, lat, lon))⟩) ∧
    (∀ t : WeatherTable V, batchFetchWeather attrs pairs = .ok t →
      t.rows = pairs.flatMap
        (fun p => ((fetchWeather attrs p.2.2 p.1 p.2.1).map WeatherTable.rows).getD [])) := by
  refine ⟨?_, ?_, ?_, ?_⟩
  · intro lat lon resp h
    simp [fetchWeather, h]
  · intro lat lon
    simp [fetchWeather]
  · intro lat lon hours
    simp [fetchWeather]
  · intro t h
    unfold batchFetchWeather at h
    split at h
    · cases h
    · rename_i t0 ts heq
      cases h
      rw [List.filterMap_map] at heq
      show (t0 :: ts).flatMap WeatherTable.rows = _
      rw [← heq, flatMap_filterMap]
      simp [Function.comp]

/-- C5 witness: a concrete batch of three pairs in which the middle pair's
fetch fails with a non-success status; the batch rows are exactly the first
and third pairs' rows. -/
theorem fetchWeather_amended_witness :
    fetchWeather ["temp"] (⟨500, some [9]⟩ : WeatherResp Nat) 3 4 = none ∧
    tW.rows = pairsW.flatMap
      (fun p => ((fetchWeather ["temp"] p.2.2 p.1 p.2.1).map WeatherTable.rows).getD []) :=
  ⟨(fetchWeather_amended ["temp"] pairsW).1 3 4 ⟨500, some [9]⟩ (by decide),
   (fetchWeather_amended ["temp"] pairsW).2.2.2 tW (by decide)⟩

/-- C9 counterexample: the input name `Foo, railway station` does not appear
in the output — `batch_geocode` stores `location.replace(", railway station",
"")`, so its row carries `Foo` instead of the input name. -/
theorem batchGeocode_replace_cex :
    (batchGeocode orcFail ["Foo, railway station"]).map GeoRow.stacja = ["Foo"] ∧
    (((batchGeocode orcFail ["Foo, railway station"]).map GeoRow.stacja).filter
      (fun s => s = "Foo, railway station")).length = 0 := by
  decide

/-- C9 amended: batch geocoding never raises: it returns exactly one row per
input name, in order, whose station field is the name with every occurrence
of `, railway station` removed — the name itself whenever it does not
contain that pattern — and whose coordinates are null exactly when the fetch
failed; a fetch fails (returns `None`, never an exception) on a non-success
HTTP status, a malformed payload, a non-OK status string or an empty result
list. -/
theorem batchGeocode_amended (orc : String → GeoResp) (locations : List String) :
    (batchGeocode orc locations).length = locations.length ∧
    (∀ (i : Nat) (loc : String), locations[i]? = some loc →
      (batchGeocode orc locations)[i]? = some
        ⟨pyReplace loc railPattern,
         (fetchGeocode (orc (loc ++ railPattern))).map GeoResult.lat,
         (fetchGeocode (orc (loc ++ railPattern))).map GeoResult.lng⟩) ∧
    (∀ loc : String, occursB railPattern.data loc.data = false →
      pyReplace loc railPattern = loc) ∧
    (∀ resp : GeoResp, resp.httpStatus ≠ 200 → fetchGeocode resp = none) ∧
    (∀ resp : GeoResp, resp.body = none → fetchGeocode resp = none) ∧
    (∀ (resp : GeoResp) (b : GeoBody), resp.body = some b →
      b.status ≠ "OK" ∨ b.results = [] → fetchGeocode resp = none) := by
  refine ⟨?_, ?_, ?_, ?_, ?_, ?_⟩
  · simp [batchGeocode]
  · intro i loc h
    unfold batchGeocode
    rw [List.getElem?_map, h]
    rfl
  · intro loc h
    unfold pyReplace
    rw [pyReplaceFuel_no_occurrence railPattern.data loc.data loc.data.length le_rfl h]
  · intro resp h
    simp [fetchGeocode, h]
  · intro resp h
    unfold fetchGeocode
    rw [h]
    split
    · rfl
    · rfl
  · intro resp b hb hfail
    unfold fetchGeocode
    rw [hb]
    have hcond : ¬(b.status = "OK" ∧ b.results ≠ []) := by
      rcases hfail with h1 | h2
      · intro hc; exact h1 hc.1
      · intro hc; exact hc.2 h2
    split
    · rfl
    · show (if b.status = "OK" ∧ b.results ≠ [] then b.results.head? else none) = none
      rw [if_neg hcond]

/-- C9 witness: one failing lookup; exactly one row, the name preserved, the
coordinates null. -/
theorem batchGeocode_amended_witness :
    (batchGeocode orcFail ["Alpha"]).length = (["Alpha"] : List String).length ∧
    (batchGeocode orcFail ["Alpha"])[0]? = some
      ⟨pyReplace "Alpha" railPattern,
       (fetchGeocode (orcFail ("Alpha" ++ railPattern))).map GeoResult.lat,
       (fetchGeocode (orcFail ("Alpha" ++ railPattern))).map GeoResult.lng⟩ ∧
    pyReplace "Alpha" railPattern = "Alpha" ∧
    fetchGeocode ⟨500, none⟩ = none :=
  ⟨(batchGeocode_amended orcFail ["Alpha"]).1,
   (batchGeocode_amended orcFail ["Alpha"]).2.1 0 "Alpha" rfl,
   (batchGeocode_amended orcFail ["Alpha"]).2.2.1 "Alpha" (by decide),
   (batchGeocode_amended orcFail ["Alpha"]).2.2.2.1 ⟨500, none⟩ (by decide)⟩
